import Mathlib

/-
  Verification of the Engagement Session Engine of the Agentic Honeypot
  service (main.py).  The definitions below are a shallow embedding of the
  Python source: `detect_scam`, `extract_intelligence`, the body of the
  `honeypot_message` endpoint (session update, notes, escalation, final
  callback) and the tiny string/regex helpers they rely on.
-/

namespace Honeypot

/-- Python whitespace characters recognised by `str.strip()` and by the
regex class backslash-s (ASCII fragment, which is all the source ever
feeds it). -/
def isPySpace (c : Char) : Bool :=
  c = ' ' || c = '\t' || c = '\n' || c = '\r' || c = '\x0b' || c = '\x0c'

/-- Python `str.strip()`: drop leading and trailing whitespace. -/
def pyStrip (s : String) : String :=
  String.mk (((s.toList.dropWhile isPySpace).reverse.dropWhile isPySpace).reverse)

/-- Python `str.lower()` (ASCII fragment). -/
def pyLower (s : String) : String :=
  String.mk (s.toList.map Char.toLower)

/-- Does `needle` start `hay`? -/
def startsWithChars : List Char → List Char → Bool
  | [], _ => true
  | _ :: _, [] => false
  | a :: as, b :: bs => a = b && startsWithChars as bs

/-- Substring test on character lists, Python `needle in hay`. -/
def containsChars (needle : List Char) : List Char → Bool
  | [] => startsWithChars needle []
  | c :: rest => startsWithChars needle (c :: rest) || containsChars needle rest

/-- Python substring test `needle in hay` on strings. -/
def containsSub (needle hay : String) : Bool :=
  containsChars needle.toList hay.toList

/-- The regex word class: alphanumerics and underscore. -/
def isWordChar (c : Char) : Bool :=
  c.isAlpha || c.isDigit || c = '_'

/-- Character class of the UPI-handle local part in the source regex. -/
def isLocalChar (c : Char) : Bool :=
  isWordChar c || c = '.' || c = '+' || c = '-'

/-- One attempted match, at the current position, of the source regex for
UPI handles: a nonempty run of local-part characters, an at sign, a
nonempty run of word characters.  Returns the matched text and the rest
of the input. -/
def matchUpi (s : List Char) : Option (String × List Char) :=
  let lp := s.takeWhile isLocalChar
  let rest1 := s.dropWhile isLocalChar
  if lp.isEmpty then none
  else
    match rest1 with
    | '@' :: rest2 =>
      let prov := rest2.takeWhile isWordChar
      if prov.isEmpty then none
      else some (String.mk (lp ++ '@' :: prov), rest2.dropWhile isWordChar)
    | _ => none

/-- The mandatory tail of the phone regex: a digit 6-9 followed by exactly
nine further digits. -/
def matchPhoneCore (s : List Char) : Option (List Char × List Char) :=
  match s with
  | [] => none
  | c :: rest =>
    if ('6' ≤ c && c ≤ '9') then
      let digs := rest.take 9
      if (digs.length == 9 && digs.all Char.isDigit) then
        some (c :: digs, rest.drop 9)
      else none
    else none

/-- One attempted match of the source phone regex: an optional country
prefix plus-9-1 with an optional single dash or whitespace separator,
then the ten-digit core.  Backtracking order follows the regex engine. -/
def matchPhone (s : List Char) : Option (String × List Char) :=
  match s with
  | '+' :: '9' :: '1' :: rest =>
    (match rest with
     | c :: rest2 =>
       if (c = '-' || isPySpace c) then
         match matchPhoneCore rest2 with
         | some (m, r) => some (String.mk ('+' :: '9' :: '1' :: c :: m), r)
         | none =>
           match matchPhoneCore rest with
           | some (m, r) => some (String.mk ('+' :: '9' :: '1' :: m), r)
           | none => none
       else
         match matchPhoneCore rest with
         | some (m, r) => some (String.mk ('+' :: '9' :: '1' :: m), r)
         | none => none
     | [] => none)
  | other =>
    match matchPhoneCore other with
    | some (m, r) => some (String.mk m, r)
    | none => none

/-- One attempted match of the source link regex: literal http, optional
s, colon-slash-slash, then a nonempty run of non-whitespace characters. -/
def matchLink (s : List Char) : Option (String × List Char) :=
  match s with
  | 'h' :: 't' :: 't' :: 'p' :: rest =>
    let (scheme, rest1) :=
      match rest with
      | 's' :: r => (['h', 't', 't', 'p', 's'], r)
      | r => (['h', 't', 't', 'p'], r)
    (match rest1 with
     | ':' :: '/' :: '/' :: rest2 =>
       let body := rest2.takeWhile (fun c => !isPySpace c)
       if body.isEmpty then none
       else some (String.mk (scheme ++ ':' :: '/' :: '/' :: body),
                  rest2.dropWhile (fun c => !isPySpace c))
     | _ => none)
  | _ => none

/-- Scanner behind `re.findall`: try the matcher at every position, left
to right, resuming after the end of each match.  Fuel bounds recursion;
one unit per character suffices because every matcher consumes at least
one character. -/
def scanAllAux (f : List Char → Option (String × List Char)) :
    Nat → List Char → List String
  | 0, _ => []
  | _, [] => []
  | Nat.succ n, c :: rest =>
    match f (c :: rest) with
    | some (m, r) => m :: scanAllAux f n r
    | none => scanAllAux f n rest

/-- `re.findall(pattern, text)` for the three patterns of the source. -/
def findall (f : List Char → Option (String × List Char)) (s : String) :
    List String :=
  scanAllAux f s.length s.toList

/-- The fixed risk vocabulary SCAM_KEYWORDS of main.py. -/
def SCAM_KEYWORDS : List String :=
  ["otp", "urgent", "verify", "blocked", "suspended",
   "upi", "bank", "account", "kyc", "immediately",
   "click", "link", "transfer", "payment"]

/-- main.py `detect_scam`: any risk keyword occurs in the lowercased
text. -/
def detect_scam (text : String) : Bool :=
  SCAM_KEYWORDS.any (fun w => containsSub w (pyLower text))

/-- The per-session intelligence ledger, the `intel` dictionary of a
session in main.py. -/
structure Intel where
  bankAccounts : List String
  upiIds : List String
  phishingLinks : List String
  phoneNumbers : List String
  suspiciousKeywords : List String
deriving DecidableEq

/-- The empty ledger a fresh session starts with. -/
def emptyIntel : Intel :=
  { bankAccounts := [], upiIds := [], phishingLinks := [],
    phoneNumbers := [], suspiciousKeywords := [] }

/-- The append-if-absent loop of `extract_intelligence`: fold the freshly
extracted values into the existing list, skipping values already
present. -/
def mergeNew (existing fresh : List String) : List String :=
  fresh.foldl (fun acc u => if u ∈ acc then acc else acc ++ [u]) existing

/-- main.py `extract_intelligence`: run the three regexes and the keyword
scan over the text and merge each result list into its ledger category.
No branch of the source ever touches `bankAccounts`. -/
def extract_intelligence (text : String) (intel : Intel) : Intel :=
  let upi_ids := findall matchUpi text
  let phone_numbers := findall matchPhone text
  let phishing_links := findall matchLink text
  { intel with
    upiIds := mergeNew intel.upiIds upi_ids,
    phoneNumbers := mergeNew intel.phoneNumbers phone_numbers,
    phishingLinks := mergeNew intel.phishingLinks phishing_links,
    suspiciousKeywords :=
      mergeNew intel.suspiciousKeywords
        (SCAM_KEYWORDS.filter (fun kw => containsSub kw (pyLower text))) }

/-- One engagement session, the per-id dictionary of main.py. -/
structure Session where
  count : Nat
  history : List String
  scamDetected : Bool
  final_sent : Bool
  intel : Intel
  agent_notes : String
deriving DecidableEq

/-- The session created on first contact (main.py session init block). -/
def initSession : Session :=
  { count := 0, history := [], scamDetected := false,
    final_sent := false, intel := emptyIntel, agent_notes := "" }

/-- The keyword list of the credential-theft tactic test in the notes
block. -/
def credWords : List String := ["otp", "pin", "password"]

/-- The agent-notes block of `honeypot_message`: tactics are collected in
source order (urgency, credential theft, payment redirection, phishing);
the first two look at the current message text, the last two at the
accumulated ledger. -/
def agentNotes (text : String) (intel : Intel) : String :=
  let tl := pyLower text
  let tactics : List String := []
  let tactics := if containsSub "urgent" tl then tactics ++ ["urgency"] else tactics
  let tactics := if credWords.any (fun x => containsSub x tl) then
      tactics ++ ["credential theft"] else tactics
  let tactics := if !intel.upiIds.isEmpty then
      tactics ++ ["payment redirection"] else tactics
  let tactics := if !intel.phishingLinks.isEmpty then
      tactics ++ ["phishing"] else tactics
  if tactics.isEmpty then "Engagement ongoing"
  else "Scammer tactics observed: " ++ String.intercalate ", " tactics

/-- The state mutations of one non-empty turn before the final callback:
increment count, latch the scam flag, extract intelligence, append the
text to history, recompute the notes (main.py lines 214-241). -/
def updateSession (t : String) (s : Session) : Session :=
  let intel := extract_intelligence t s.intel
  { count := s.count + 1,
    history := s.history ++ [t],
    scamDetected := if detect_scam t then true else s.scamDetected,
    final_sent := s.final_sent,
    intel := intel,
    agent_notes := agentNotes t intel }

/-- The `should_send_final` escalation condition of `honeypot_message`,
evaluated on the already-updated session. -/
def should_send_final (s : Session) : Bool :=
  s.scamDetected && !s.final_sent &&
    (decide (5 ≤ s.count) ||
     decide (0 < s.intel.upiIds.length) ||
     decide (0 < s.intel.phishingLinks.length) ||
     decide (0 < s.intel.phoneNumbers.length))

/-- One inbound message as seen by the endpoint: an optional sender tag
and a text.  The source never reads the sender field. -/
structure Msg where
  sender : Option String
  text : String
deriving DecidableEq

/-- Everything one call of `honeypot_message` produces for a session:
the session state after the call (Python mutates the stored dictionary
in place, so the mutations survive even when the call raises), the reply
returned to the caller (none when an exception escaped), and whether
`agent_reply` and `send_final_to_guvi` were invoked during the call. -/
structure TurnOutcome where
  session : Session
  reply : Option String
  personaInvoked : Bool
  sinkInvoked : Bool
deriving DecidableEq

/-- The body of `honeypot_message` for one session.  `sinkOk` says whether
the `send_final_to_guvi` network call succeeds; when it raises, the
exception propagates out of the endpoint (there is no try/except around
it), so no reply is returned and `final_sent` is never set, while all
earlier in-place mutations persist.  `personaReply` is whatever string
`agent_reply` returned (opaque external collaborator). -/
def processTurn (sinkOk : Bool) (personaReply : String) (m : Msg)
    (s : Session) : TurnOutcome :=
  let t := pyStrip m.text
  if t = "" then
    { session := s, reply := some "Sorry, could you repeat that?",
      personaInvoked := false, sinkInvoked := false }
  else
    let s1 := updateSession t s
    if should_send_final s1 then
      if sinkOk then
        { session := { s1 with final_sent := true },
          reply := some personaReply,
          personaInvoked := true, sinkInvoked := true }
      else
        { session := s1, reply := none,
          personaInvoked := true, sinkInvoked := true }
    else
      { session := s1, reply := some personaReply,
        personaInvoked := true, sinkInvoked := false }

/-- One turn's inputs, for whole-run statements. -/
structure TurnInput where
  sinkOk : Bool
  personaReply : String
  msg : Msg
deriving DecidableEq

/-- The session state after one turn. -/
def stepSession (s : Session) (ti : TurnInput) : Session :=
  (processTurn ti.sinkOk ti.personaReply ti.msg s).session

/-- The session reached from a fresh session by a list of turns. -/
def runSession (tis : List TurnInput) : Session :=
  tis.foldl stepSession initSession

/-- Run a list of messages through one session, counting how many times
the Report Sink was invoked. -/
def sinkCount (sinkOk : Bool) (r : String) (s : Session) : List Msg → Nat
  | [] => 0
  | m :: ms =>
    (if (processTurn sinkOk r m s).sinkInvoked then 1 else 0) +
      sinkCount sinkOk r (processTurn sinkOk r m s).session ms

/-- Spec-side restatement of the notes computation, following the amended
claim wording: the urgency and credential-theft flags come from the
current message text, payment redirection from the accumulated UPI ids,
phishing from the accumulated links; the applicable notes are
concatenated in that order, and with no applicable tactic the note is the
fixed engagement text. -/
def notesSpec (urg cred pay phish : Bool) : String :=
  let tactics :=
    (if urg then ["urgency"] else []) ++
    (if cred then ["credential theft"] else []) ++
    (if pay then ["payment redirection"] else []) ++
    (if phish then ["phishing"] else [])
  if tactics.isEmpty then "Engagement ongoing"
  else "Scammer tactics observed: " ++ String.intercalate ", " tactics

/-! ### Helper lemmas about the ledger merge -/

theorem mergeNew_nil (xs : List String) : mergeNew xs [] = xs := rfl

theorem mergeNew_cons (xs : List String) (y : String) (ys : List String) :
    mergeNew xs (y :: ys) = mergeNew (if y ∈ xs then xs else xs ++ [y]) ys := rfl

theorem mem_mergeNew (a : String) (xs ys : List String) :
    a ∈ mergeNew xs ys ↔ a ∈ xs ∨ a ∈ ys := by
  induction ys generalizing xs with
  | nil => simp [mergeNew_nil]
  | cons y ys ih =>
    rw [mergeNew_cons]
    by_cases hy : y ∈ xs
    · rw [if_pos hy, ih]
      simp only [List.mem_cons]
      constructor
      · rintro (h | h)
        · exact Or.inl h
        · exact Or.inr (Or.inr h)
      · rintro (h | rfl | h)
        · exact Or.inl h
        · exact Or.inl hy
        · exact Or.inr h
    · rw [if_neg hy, ih]
      simp only [List.mem_append, List.mem_singleton, List.mem_cons]
      tauto

theorem mergeNew_eq_of_subset (xs ys : List String)
    (h : ∀ y ∈ ys, y ∈ xs) : mergeNew xs ys = xs := by
  induction ys generalizing xs with
  | nil => rfl
  | cons y ys ih =>
    rw [mergeNew_cons, if_pos (h y (List.mem_cons_self y ys))]
    exact ih xs (fun z hz => h z (List.mem_cons_of_mem y hz))

theorem mergeNew_idem (xs ys : List String) :
    mergeNew (mergeNew xs ys) ys = mergeNew xs ys :=
  mergeNew_eq_of_subset _ _ (fun y hy => (mem_mergeNew y xs ys).mpr (Or.inr hy))

theorem mergeNew_nodup (xs ys : List String) (h : xs.Nodup) :
    (mergeNew xs ys).Nodup := by
  induction ys generalizing xs with
  | nil => exact h
  | cons y ys ih =>
    rw [mergeNew_cons]
    by_cases hy : y ∈ xs
    · rw [if_pos hy]; exact ih xs h
    · rw [if_neg hy]
      refine ih _ ?_
      simp [List.nodup_append, h, hy]

theorem mergeNew_ne_nil (xs ys : List String) (h : ys ≠ []) :
    mergeNew xs ys ≠ [] := by
  obtain ⟨y, hy⟩ := List.exists_mem_of_ne_nil ys h
  exact List.ne_nil_of_mem ((mem_mergeNew y xs ys).mpr (Or.inr hy))

/-! ### Helper lemmas about one turn -/

theorem detect_scam_iff_filter (t : String) :
    detect_scam t = true ↔
      SCAM_KEYWORDS.filter (fun kw => containsSub kw (pyLower t)) ≠ [] := by
  constructor
  · intro h hnil
    obtain ⟨w, hw, hpw⟩ := List.any_eq_true.mp h
    have hmem : w ∈ SCAM_KEYWORDS.filter (fun kw => containsSub kw (pyLower t)) :=
      List.mem_filter.mpr ⟨hw, hpw⟩
    rw [hnil] at hmem
    exact List.not_mem_nil w hmem
  · intro h
    obtain ⟨w, hw⟩ := List.exists_mem_of_ne_nil _ h
    obtain ⟨hmem, hp⟩ := List.mem_filter.mp hw
    exact List.any_eq_true.mpr ⟨w, hmem, hp⟩

theorem updateSession_final (t : String) (s : Session) :
    (updateSession t s).final_sent = s.final_sent := rfl

theorem processTurn_empty (ok : Bool) (r : String) (m : Msg) (s : Session)
    (h : pyStrip m.text = "") :
    processTurn ok r m s =
      { session := s, reply := some "Sorry, could you repeat that?",
        personaInvoked := false, sinkInvoked := false } := by
  simp [processTurn, h]

theorem processTurn_core (ok : Bool) (r : String) (m : Msg) (s : Session)
    (h : pyStrip m.text ≠ "") :
    (processTurn ok r m s).session.scamDetected =
        (updateSession (pyStrip m.text) s).scamDetected ∧
      (processTurn ok r m s).session.intel =
        (updateSession (pyStrip m.text) s).intel ∧
      (processTurn ok r m s).session.agent_notes =
        (updateSession (pyStrip m.text) s).agent_notes ∧
      (processTurn ok r m s).session.count =
        (updateSession (pyStrip m.text) s).count ∧
      (processTurn ok r m s).session.history =
        (updateSession (pyStrip m.text) s).history := by
  by_cases hs : should_send_final (updateSession (pyStrip m.text) s) = true <;>
    cases ok <;> simp [processTurn, h, hs]

theorem processTurn_sink_eq (ok : Bool) (r : String) (m : Msg) (s : Session) :
    (processTurn ok r m s).sinkInvoked =
      (decide (pyStrip m.text ≠ "") &&
        should_send_final (updateSession (pyStrip m.text) s)) := by
  by_cases h : pyStrip m.text = ""
  · simp [processTurn, h]
  · by_cases hs : should_send_final (updateSession (pyStrip m.text) s) = true <;>
      cases ok <;> simp [processTurn, h, hs]

theorem should_send_final_of_sent (s : Session) (h : s.final_sent = true) :
    should_send_final s = false := by
  simp [should_send_final, h]

theorem sink_silent_of_sent (ok : Bool) (r : String) (m : Msg) (s : Session)
    (h : s.final_sent = true) : (processTurn ok r m s).sinkInvoked = false := by
  rw [processTurn_sink_eq]
  rw [should_send_final_of_sent _ (by rw [updateSession_final]; exact h)]
  simp

theorem sink_sets_final (r : String) (m : Msg) (s : Session)
    (h : (processTurn true r m s).sinkInvoked = true) :
    (processTurn true r m s).session.final_sent = true := by
  by_cases ht : pyStrip m.text = ""
  · rw [processTurn_empty true r m s ht] at h
    exact absurd h (by simp)
  · by_cases hs : should_send_final (updateSession (pyStrip m.text) s) = true
    · simp [processTurn, ht, hs]
    · rw [processTurn_sink_eq] at h
      simp [ht, hs] at h

theorem final_of_sink_silent (ok : Bool) (r : String) (m : Msg) (s : Session)
    (h : (processTurn ok r m s).sinkInvoked = false) :
    (processTurn ok r m s).session.final_sent = s.final_sent := by
  by_cases ht : pyStrip m.text = ""
  · rw [processTurn_empty ok r m s ht]
  · by_cases hs : should_send_final (updateSession (pyStrip m.text) s) = true
    · rw [processTurn_sink_eq] at h
      simp [ht, hs] at h
    · cases ok <;> simp [processTurn, ht, hs, updateSession_final]

theorem final_sent_mono (ok : Bool) (r : String) (m : Msg) (s : Session)
    (h : s.final_sent = true) :
    (processTurn ok r m s).session.final_sent = true := by
  have hsil := sink_silent_of_sent ok r m s h
  rw [final_of_sink_silent ok r m s hsil]
  exact h

theorem scamDetected_mono (ok : Bool) (r : String) (m : Msg) (s : Session)
    (h : s.scamDetected = true) :
    (processTurn ok r m s).session.scamDetected = true := by
  by_cases ht : pyStrip m.text = ""
  · rw [processTurn_empty ok r m s ht]
    exact h
  · rw [(processTurn_core ok r m s ht).1]
    cases hd : detect_scam (pyStrip m.text) <;> simp [updateSession, hd, h]

theorem agentNotes_eq_spec (t : String) (i : Intel) :
    agentNotes t i =
      notesSpec (containsSub "urgent" (pyLower t))
        (credWords.any (fun x => containsSub x (pyLower t)))
        (!i.upiIds.isEmpty) (!i.phishingLinks.isEmpty) := by
  cases hu : containsSub "urgent" (pyLower t) <;>
    cases hc : credWords.any (fun x => containsSub x (pyLower t)) <;>
    cases hp : i.upiIds.isEmpty <;>
    cases hl : i.phishingLinks.isEmpty <;>
    simp [agentNotes, notesSpec, hu, hc, hp, hl]

theorem scam_keywords_step (s : Session) (ti : TurnInput)
    (h : s.scamDetected = true ↔ s.intel.suspiciousKeywords ≠ []) :
    (stepSession s ti).scamDetected = true ↔
      (stepSession s ti).intel.suspiciousKeywords ≠ [] := by
  unfold stepSession
  by_cases ht : pyStrip ti.msg.text = ""
  · rw [processTurn_empty ti.sinkOk ti.personaReply ti.msg s ht]
    exact h
  · have hcore := processTurn_core ti.sinkOk ti.personaReply ti.msg s ht
    rw [hcore.1, hcore.2.1]
    by_cases hd : detect_scam (pyStrip ti.msg.text) = true
    · have hne := mergeNew_ne_nil s.intel.suspiciousKeywords _
        ((detect_scam_iff_filter _).mp hd)
      simp [updateSession, extract_intelligence, hd, hne]
    · have hf : SCAM_KEYWORDS.filter
          (fun kw => containsSub kw (pyLower (pyStrip ti.msg.text))) = [] := by
        by_contra hne
        exact hd ((detect_scam_iff_filter _).mpr hne)
      simp only [updateSession, extract_intelligence, hd, hf, mergeNew_nil,
        if_neg, Bool.false_eq_true]
      simpa using h

/-! ### The claims -/

/-- C9: the ledger merge is idempotent — running `extract_intelligence`
twice with the same text yields the same record as running it once — and
it keeps every category duplicate-free. -/
theorem c9_merge_idempotent :
    (∀ text intel, extract_intelligence text (extract_intelligence text intel) =
      extract_intelligence text intel) ∧
    (∀ text intel, intel.upiIds.Nodup → intel.phoneNumbers.Nodup →
      intel.phishingLinks.Nodup → intel.suspiciousKeywords.Nodup →
      ((extract_intelligence text intel).upiIds.Nodup ∧
       (extract_intelligence text intel).phoneNumbers.Nodup ∧
       (extract_intelligence text intel).phishingLinks.Nodup ∧
       (extract_intelligence text intel).suspiciousKeywords.Nodup)) := by
  constructor
  · intro text intel
    simp [extract_intelligence, mergeNew_idem]
  · intro text intel h1 h2 h3 h4
    exact ⟨mergeNew_nodup _ _ h1, mergeNew_nodup _ _ h2,
      mergeNew_nodup _ _ h3, mergeNew_nodup _ _ h4⟩

/-- Witness for C9 at a concrete record and fragment. -/
theorem c9_merge_idempotent_witness :
    (extract_intelligence "upi a@b" (extract_intelligence "upi a@b" emptyIntel) =
      extract_intelligence "upi a@b" emptyIntel) ∧
    ((extract_intelligence "upi a@b" emptyIntel).upiIds.Nodup ∧
     (extract_intelligence "upi a@b" emptyIntel).phoneNumbers.Nodup ∧
     (extract_intelligence "upi a@b" emptyIntel).phishingLinks.Nodup ∧
     (extract_intelligence "upi a@b" emptyIntel).suspiciousKeywords.Nodup) :=
  ⟨c9_merge_idempotent.1 "upi a@b" emptyIntel,
   c9_merge_idempotent.2 "upi a@b" emptyIntel (by decide) (by decide)
     (by decide) (by decide)⟩

/-- C6 is false on the code: no branch of `extract_intelligence` ever
writes to `bankAccounts`, so the account-numbers category stays exactly
as it was for every input, and in particular a 12-digit run leaves a
fresh session's `bankAccounts` empty. -/
theorem c6_bank_accounts_never_populated :
    (∀ text intel, (extract_intelligence text intel).bankAccounts =
      intel.bankAccounts) ∧
    (processTurn true "ok" { sender := none, text := "111122223333" }
      initSession).session.intel.bankAccounts = [] := by
  constructor
  · intro text intel
    rfl
  · decide

/-- C5 is false on the code: the sender field of an inbound message is
never read, so a message marked as coming from the persona side is
counted, classified and extracted exactly like a scammer message, and
the outcome of a turn is identical for any two sender tags. -/
theorem c5_sender_field_ignored :
    ((processTurn true "ok" { sender := some "persona", text := "urgent otp" }
        initSession).session.count = 1 ∧
     (processTurn true "ok" { sender := some "persona", text := "urgent otp" }
        initSession).session.scamDetected = true ∧
     (processTurn true "ok" { sender := some "persona", text := "urgent otp" }
        initSession).session.intel.suspiciousKeywords = ["otp", "urgent"]) ∧
    (∀ ok rep tag1 tag2 t sess,
      processTurn ok rep { sender := tag1, text := t } sess =
        processTurn ok rep { sender := tag2, text := t } sess) := by
  refine ⟨⟨by decide, by decide, by decide⟩, ?_⟩
  intro ok rep tag1 tag2 t sess
  rfl

/-- C10: in every reachable session state, the scam flag is set exactly
when the suspicious-keywords category of the ledger is nonempty, because
the classifier and the keyword-extraction branch test the same vocabulary
with the same substring match. -/
theorem c10_scam_iff_keywords (tis : List TurnInput) :
    (runSession tis).scamDetected = true ↔
      (runSession tis).intel.suspiciousKeywords ≠ [] := by
  have main : ∀ (l : List TurnInput) (s : Session),
      (s.scamDetected = true ↔ s.intel.suspiciousKeywords ≠ []) →
      ((l.foldl stepSession s).scamDetected = true ↔
        (l.foldl stepSession s).intel.suspiciousKeywords ≠ []) := by
    intro l
    induction l with
    | nil => intro s h; exact h
    | cons ti l ih =>
      intro s h
      exact ih _ (scam_keywords_step s ti h)
  exact main tis initSession (by simp [initSession, emptyIntel])

/-- C1: the escalation decision is true exactly when the scam flag is
set, the report has not been sent, and either the turn count reached 5 or
the ledger holds a UPI id, phone number or link; a turn invokes the sink
exactly when the updated session satisfies this; with the flag set and an
empty ledger nothing fires below 5 turns, and with a captured link it
fires at turn 2. -/
theorem c1_escalation_policy :
    (∀ s : Session, should_send_final s = true ↔
      (s.scamDetected = true ∧ s.final_sent = false ∧
        (5 ≤ s.count ∨ s.intel.upiIds ≠ [] ∨ s.intel.phoneNumbers ≠ [] ∨
          s.intel.phishingLinks ≠ []))) ∧
    (∀ (ok : Bool) (r : String) (m : Msg) (s : Session),
      (processTurn ok r m s).sinkInvoked = true ↔
        (pyStrip m.text ≠ "" ∧
          should_send_final (updateSession (pyStrip m.text) s) = true)) ∧
    (∀ s : Session, s.scamDetected = true → s.final_sent = false →
      s.intel.upiIds = [] → s.intel.phoneNumbers = [] →
      s.intel.phishingLinks = [] → s.count < 5 →
      should_send_final s = false) ∧
    (∀ s : Session, s.scamDetected = true → s.final_sent = false →
      s.count = 2 → s.intel.phishingLinks ≠ [] →
      should_send_final s = true) := by
  refine ⟨?_, ?_, ?_, ?_⟩
  · intro s
    simp only [should_send_final, Bool.and_eq_true, Bool.or_eq_true,
      Bool.not_eq_true', decide_eq_true_eq, List.length_pos]
    tauto
  · intro ok r m s
    rw [processTurn_sink_eq]
    simp
  · intro s h1 h2 h3 h4 h5 h6
    simp only [should_send_final, h1, h2, h3, h4, h5]
    simp only [Bool.not_false, Bool.true_and, List.length_nil]
    have : ¬ (5 ≤ s.count) := by omega
    simp [this]
  · intro s h1 h2 h3 h4
    simp [should_send_final, h1, h2, h3, List.length_pos, h4]

/-- Witness for C1: a session at turn 2 with the scam flag set and one
captured link escalates. -/
theorem c1_escalation_policy_witness :
    should_send_final
      { count := 2, history := [], scamDetected := true, final_sent := false,
        intel := { bankAccounts := [], upiIds := [],
                   phishingLinks := ["http://x.y"], phoneNumbers := [],
                   suspiciousKeywords := ["link"] },
        agent_notes := "" } = true :=
  c1_escalation_policy.2.2.2 _ rfl rfl rfl (by decide)

/-- Counterexample to C2 as stated: on a turn whose text sets off no
scam keyword, the session's scam flag is still false, yet `agent_reply`
is invoked anyway — the source calls it unconditionally. -/
theorem c2_persona_gate_cex :
    (processTurn true "generated" { sender := none, text := "hello" }
        initSession).session.scamDetected = false ∧
    (processTurn true "generated" { sender := none, text := "hello" }
        initSession).personaInvoked = true := by
  decide

/-- C2 amended: the Persona Engine (`agent_reply`) is invoked on every
processed turn with non-empty text, regardless of the scam flag. -/
theorem c2_persona_always_invoked (ok : Bool) (r : String) (m : Msg)
    (s : Session) (h : pyStrip m.text ≠ "") :
    (processTurn ok r m s).personaInvoked = true := by
  by_cases hs : should_send_final (updateSession (pyStrip m.text) s) = true <;>
    cases ok <;> simp [processTurn, h, hs]

/-- Witness for the amended C2 at a concrete non-empty message. -/
theorem c2_persona_always_invoked_witness :
    pyStrip "hello" ≠ "" ∧
    (processTurn true "generated" { sender := none, text := "hello" }
        initSession).personaInvoked = true :=
  ⟨by decide, c2_persona_always_invoked true "generated"
    { sender := none, text := "hello" } initSession (by decide)⟩

/-- Counterexample to C3 as stated: on a turn where the final callback
fires and the sink call fails, the exception escapes (no reply is
returned) and `final_sent` is left false — the source has no try/except
around `send_final_to_guvi`. -/
theorem c3_sink_failure_cex :
    (processTurn false "r" { sender := none, text := "urgent http://a.b" }
        initSession).sinkInvoked = true ∧
    (processTurn false "r" { sender := none, text := "urgent http://a.b" }
        initSession).reply = none ∧
    (processTurn false "r" { sender := none, text := "urgent http://a.b" }
        initSession).session.final_sent = false := by
  decide

/-- C3 amended: when the Report Sink call fails, the error propagates to
the caller — the turn returns no reply — and `final_sent` remains false,
so the report will be attempted again on a later qualifying turn. -/
theorem c3_sink_failure_propagates (r : String) (m : Msg) (s : Session)
    (h : (processTurn false r m s).sinkInvoked = true) :
    (processTurn false r m s).reply = none ∧
      (processTurn false r m s).session.final_sent = false := by
  by_cases ht : pyStrip m.text = ""
  · rw [processTurn_empty false r m s ht] at h
    exact absurd h (by simp)
  · by_cases hs : should_send_final (updateSession (pyStrip m.text) s) = true
    · have hf : (updateSession (pyStrip m.text) s).final_sent = false := by
        have := hs
        simp only [should_send_final, Bool.and_eq_true, Bool.not_eq_true'] at this
        exact this.1.2
      constructor
      · simp [processTurn, ht, hs]
      · simp [processTurn, ht, hs, hf]
    · rw [processTurn_sink_eq] at h
      simp [ht, hs] at h

/-- Witness for the amended C3 at a concrete failing-sink turn. -/
theorem c3_sink_failure_propagates_witness :
    (processTurn false "r" { sender := none, text := "urgent http://evil.in" }
        initSession).sinkInvoked = true ∧
    ((processTurn false "r" { sender := none, text := "urgent http://evil.in" }
        initSession).reply = none ∧
     (processTurn false "r" { sender := none, text := "urgent http://evil.in" }
        initSession).session.final_sent = false) :=
  ⟨by decide, c3_sink_failure_propagates "r"
    { sender := none, text := "urgent http://evil.in" } initSession (by decide)⟩

/-- Counterexample to C4 as stated: when the sink call keeps failing,
`final_sent` is never set, so two successive qualifying turns of the
same session invoke the Report Sink twice. -/
theorem c4_at_most_once_cex :
    sinkCount false "r" initSession
      [{ sender := none, text := "urgent http://a.b" },
       { sender := none, text := "urgent http://a.b" }] = 2 := by
  decide

/-- C4 amended: as long as every sink invocation succeeds, the Report
Sink is invoked at most once per session (and never again once
`final_sent` is set). -/
theorem c4_at_most_one_successful_report (r : String) (s : Session)
    (ms : List Msg) :
    sinkCount true r s ms ≤ (if s.final_sent = true then 0 else 1) := by
  induction ms generalizing s with
  | nil => simp [sinkCount]
  | cons m ms ih =>
    rw [sinkCount]
    cases hf : s.final_sent
    · cases hi : (processTurn true r m s).sinkInvoked
      · have hpres := final_of_sink_silent true r m s hi
        have hrec := ih (processTurn true r m s).session
        rw [hpres, hf] at hrec
        simp only [hf, hi, if_false, Bool.false_eq_true]
        simpa using hrec
      · have hset := sink_sets_final r m s hi
        have hrec := ih (processTurn true r m s).session
        rw [hset] at hrec
        simp only [if_pos] at hrec
        simp [hf, hi]
        omega
    · have hni := sink_silent_of_sent true r m s hf
      have hpres := final_of_sink_silent true r m s hni
      have hrec := ih (processTurn true r m s).session
      rw [hpres, hf] at hrec
      simp only [if_pos] at hrec
      simp [hf, hni]
      omega

/-- Counterexample to C7 as stated: two turns that leave the ledger in
the same state produce different notes, because the urgency and
credential-theft tactics are read off the current message text, not the
intelligence record. -/
theorem c7_notes_cex :
    (processTurn true "r" { sender := none, text := "pin" }
        initSession).session.intel =
      (processTurn true "r" { sender := none, text := "zzz" }
        initSession).session.intel ∧
    (processTurn true "r" { sender := none, text := "pin" }
        initSession).session.agent_notes ≠
      (processTurn true "r" { sender := none, text := "zzz" }
        initSession).session.agent_notes := by
  decide

/-- C7 amended: after a processed turn the notes are a pure function of
the current message text and the accumulated intelligence — urgency and
credential theft from the text, payment redirection from the UPI ids,
phishing from the links, concatenated in that order, with the fixed
engagement note when nothing applies. -/
theorem c7_notes_formula (ok : Bool) (r : String) (m : Msg) (s : Session)
    (h : pyStrip m.text ≠ "") :
    (processTurn ok r m s).session.agent_notes =
      notesSpec (containsSub "urgent" (pyLower (pyStrip m.text)))
        (credWords.any (fun x => containsSub x (pyLower (pyStrip m.text))))
        (!(processTurn ok r m s).session.intel.upiIds.isEmpty)
        (!(processTurn ok r m s).session.intel.phishingLinks.isEmpty) := by
  have hcore := processTurn_core ok r m s h
  rw [hcore.2.2.1, hcore.2.1]
  simpa [updateSession] using
    agentNotes_eq_spec (pyStrip m.text)
      (extract_intelligence (pyStrip m.text) s.intel)

/-- Witness for the amended C7 at a concrete turn. -/
theorem c7_notes_formula_witness :
    pyStrip "hello" ≠ "" ∧
    (processTurn true "ok" { sender := none, text := "hello" }
        initSession).session.agent_notes =
      notesSpec (containsSub "urgent" (pyLower (pyStrip "hello")))
        (credWords.any (fun x => containsSub x (pyLower (pyStrip "hello"))))
        (!(processTurn true "ok" { sender := none, text := "hello" }
            initSession).session.intel.upiIds.isEmpty)
        (!(processTurn true "ok" { sender := none, text := "hello" }
            initSession).session.intel.phishingLinks.isEmpty) :=
  ⟨by decide, c7_notes_formula true "ok" { sender := none, text := "hello" }
    initSession (by decide)⟩

/-- C8: both flags are monotonic — a turn of any content never resets
`scamDetected` or `final_sent` once they are true. -/
theorem c8_flags_monotonic (ok : Bool) (r : String) (m : Msg) (s : Session) :
    (s.scamDetected = true → (processTurn ok r m s).session.scamDetected = true) ∧
    (s.final_sent = true → (processTurn ok r m s).session.final_sent = true) :=
  ⟨scamDetected_mono ok r m s, final_sent_mono ok r m s⟩

/-- Witness for C8 at a concrete session with both flags set. -/
theorem c8_flags_monotonic_witness :
    (processTurn true "ok" { sender := none, text := "hi" }
      { count := 3, history := [], scamDetected := true, final_sent := true,
        intel := emptyIntel, agent_notes := "" }).session.scamDetected = true ∧
    (processTurn true "ok" { sender := none, text := "hi" }
      { count := 3, history := [], scamDetected := true, final_sent := true,
        intel := emptyIntel, agent_notes := "" }).session.final_sent = true :=
  ⟨(c8_flags_monotonic true "ok" { sender := none, text := "hi" }
      { count := 3, history := [], scamDetected := true, final_sent := true,
        intel := emptyIntel, agent_notes := "" }).1 rfl,
   (c8_flags_monotonic true "ok" { sender := none, text := "hi" }
      { count := 3, history := [], scamDetected := true, final_sent := true,
        intel := emptyIntel, agent_notes := "" }).2 rfl⟩

end Honeypot
